import Mathlib

/-!
# Verification of the sysengchatbot requirement-enrichment and orchestration core

This file shallowly embeds the original logic of `src/api_integration.py` and
`src/api_integration_simple.py`: the text-enrichment step
(`enhance_user_requirements`), the phrase importance filter
(`extract_important_phrases`, post-filter and ordering), the table-name
detection and validation (`detect_table_name`, `fetch_specific_table`), the
PDF-excerpt prompt assembly, and the try/except error wrapping of the
generation calls.

External collaborators (the spaCy NLP pipeline, the ODBC driver, the hosted
model) are modelled as oracle inputs: noun-chunk/entity/sentence lists,
a database oracle, and `Except`-valued call results.  Python set iteration
order is unspecified, so wherever the code iterates over a `set` the
enumeration is an explicit parameter constrained to be a duplicate-free
listing of the set's members.
-/

namespace SysEng

/-! ## Character classes (Python `re` / `str` semantics) -/

/-- The ASCII whitespace characters of Python's `str.strip()` / `str.split()` /
regex `\s`.  (Python additionally treats non-ASCII Unicode spaces as
whitespace; no theorem below involves such characters.) -/
def isPySpace (c : Char) : Bool :=
  c = ' ' || c = '\t' || c = '\n' || c = '\r' || c = '\x0b' || c = '\x0c'

/-- The ASCII class `[A-Za-z0-9_]`: the capture class of `detect_table_name`'s
regex, and the ASCII part of Python's `\w`. -/
def asciiWordChar (c : Char) : Bool :=
  c.isAlphanum || c = '_'

/-- Python's `\w` word-character class (Python 3 `str` patterns are Unicode by
default, so `\w` also matches non-ASCII letters and digits).  Beyond ASCII this
models the Latin-1 Supplement and Latin Extended-A/B letters
(U+00C0..U+024F except `×` U+00D7 and `÷` U+00F7), which agrees with Python on
every string these theorems touch. -/
def isPyWordChar (c : Char) : Bool :=
  asciiWordChar c ||
    (decide (0xC0 ≤ c.toNat) && decide (c.toNat ≤ 0x24F) &&
      c.toNat != 0xD7 && c.toNat != 0xF7)

/-! ## Python string helpers -/

/-- Both-ends whitespace trim on a character list. -/
def stripChars (l : List Char) : List Char :=
  ((l.dropWhile isPySpace).reverse.dropWhile isPySpace).reverse

/-- Python `str.strip()`. -/
def pyStrip (s : String) : String :=
  String.mk (stripChars s.data)

/-- Helper for `pyWordCount`: counts maximal non-whitespace runs; the Boolean
records whether the previous character was inside a word. -/
def wordCountAux : List Char → Bool → Nat
  | [], _ => 0
  | c :: rest, inWord =>
    if isPySpace c then wordCountAux rest false
    else (if inWord then 0 else 1) + wordCountAux rest true

/-- Python `len(s.split())`: the number of whitespace-separated tokens. -/
def pyWordCount (s : String) : Nat :=
  wordCountAux s.data false

/-- Python `", ".join(l)`. -/
def joinComma : List String → String
  | [] => ""
  | [s] => s
  | s :: rest => s ++ ", " ++ joinComma rest

/-- `listPre p l` is true iff `p` is an initial segment of `l`
(character-list version of "string `l` starts with `p`"). -/
def listPre : List Char → List Char → Bool
  | [], _ => true
  | _ :: _, [] => false
  | a :: as, b :: bs => a == b && listPre as bs

/-- `strBegins p s`: string `s` begins with `p`. -/
def strBegins (p s : String) : Bool :=
  listPre p.data s.data

/-- Helper for `pyIndexOf`: first index `≥ k` at which `needle` occurs. -/
def idxAux (needle : List Char) : List Char → Nat → Option Nat
  | [], k => if needle.isEmpty then some k else none
  | c :: rest, k =>
    if listPre needle (c :: rest) then some k else idxAux needle rest (k + 1)

/-- Python `text.index(phrase)` as an `Option`: the index of the first
occurrence of `phrase` in `text`, or `none` (a raised `ValueError`). -/
def pyIndexOf (text phrase : String) : Option Nat :=
  idxAux phrase.data text.data 0

/-! ## Python `sorted` (stable sort) -/

/-- Stable insertion of `x`: placed before the first element `y` with
`le x y`.  With a total `le` this reproduces the unique stable sort, which is
what Python's (stable) `sorted` computes. -/
def pyInsert (le : α → α → Bool) (x : α) : List α → List α
  | [] => [x]
  | y :: ys => if le x y then x :: y :: ys else y :: pyInsert le x ys

/-- Model of Python's stable `sorted(l, key=...)` for a total `le`. -/
def pySortBy (le : α → α → Bool) : List α → List α
  | [] => []
  | x :: xs => pyInsert le x (pySortBy le xs)

/-- Lexicographic order on character lists by code point, as Python compares
strings. -/
def lexLe : List Char → List Char → Bool
  | [], _ => true
  | _ :: _, [] => false
  | a :: as, b :: bs => if a = b then lexLe as bs else decide (a < b)

/-- Python string `<=` (code-point lexicographic). -/
def strLe (a b : String) : Bool :=
  lexLe a.data b.data

/-! ## Text Enrichment (`enhance_user_requirements`, both modules)

The spaCy collaborator is an oracle: `chunks` and `ents` are the raw
`noun_chunks` / `ents` texts.  The Python code collects their `.strip()`ed
values into a `set`; `keyPhraseMembers` is that set's member list (in first
occurrence order, used only for membership), and a concrete iteration order of
the set is a separate parameter constrained by `PySetEnum`. -/

/-- The members of the Python set
`set(chunk.strip() for chunk in chunks) | set(ent.strip() for ent in ents)`. -/
def keyPhraseMembers (chunks ents : List String) : List String :=
  ((chunks.map pyStrip) ++ (ents.map pyStrip)).dedup

/-- `PySetEnum a b`: `b` is a possible iteration order of a Python set whose
member list is `a` (duplicate-free, same members; order unspecified). -/
def PySetEnum (a b : List String) : Prop :=
  b.Nodup ∧ ∀ x, x ∈ b ↔ x ∈ a

/-- The brevity note appended by both modules when the input has fewer than
20 whitespace-separated tokens (including its leading newline). -/
def briefNote : String :=
  "\n[Note: The input is brief; more detail may yield a richer design.]"

/-- `api_integration.enhance_user_requirements` before the brevity-note step:
trimmed input, plus `"\nKey concepts: " + ", ".join(key_phrases)` when the
phrase set is non-empty; `ord` is the set's iteration order. -/
def enhanceBase (user_text : String) (ord : List String) : String :=
  if ord.isEmpty then pyStrip user_text
  else pyStrip user_text ++ "\nKey concepts: " ++ joinComma ord

/-- Embedding of `api_integration.enhance_user_requirements` (the full module:
the key-phrase set is joined in set-iteration order `ord`). -/
def enhance_user_requirements (user_text : String) (ord : List String) : String :=
  if pyWordCount user_text < 20 then enhanceBase user_text ord ++ briefNote
  else enhanceBase user_text ord

/-- The phrase list of `api_integration_simple.enhance_user_requirements`:
`sorted(list(key_phrases))`.  All members are distinct, so sorting the
canonical member list equals sorting any set enumeration. -/
def simpleKeyPhrases (chunks ents : List String) : List String :=
  pySortBy strLe (keyPhraseMembers chunks ents)

/-- `api_integration_simple.enhance_user_requirements` before the brevity-note
step (phrases sorted, hence deterministic). -/
def enhanceBaseSimple (user_text : String) (chunks ents : List String) : String :=
  if (simpleKeyPhrases chunks ents).isEmpty then pyStrip user_text
  else pyStrip user_text ++ "\nKey concepts: " ++ joinComma (simpleKeyPhrases chunks ents)

/-- Embedding of `api_integration_simple.enhance_user_requirements`. -/
def enhance_user_requirements_simple (user_text : String) (chunks ents : List String) : String :=
  if pyWordCount user_text < 20 then enhanceBaseSimple user_text chunks ents ++ briefNote
  else enhanceBaseSimple user_text chunks ents

/-! ## Phrase Importance Filter (`extract_important_phrases`, steps 4-5)

Steps 1-3 select phrases from spaCy entities/chunks/sentences into the set
`important_phrases`; that selection is spaCy-dependent, so an enumeration of
the selected set is the oracle input `cands`.  Step 4 (the post-filter) is
`keepPhrase`; `filteredMembers cands` is the member list of the Python set
`filtered`.  Step 5 sorts an enumeration of `filtered` by `phrase_index`. -/

/-- The stop set of `extract_important_phrases` step 4. -/
def stopWords : List String :=
  ["i", "am", "a", "the", "it", "these", "this", "that"]

/-- Python `s.lower()` (ASCII case folding; no stop word can arise from
non-ASCII case folding). -/
def strLower (s : String) : String :=
  String.mk (s.data.map Char.toLower)

/-- Step 4 of `extract_important_phrases`: keep a phrase iff its length is at
least 4 and its lowercasing is not in the stop set. -/
def keepPhrase (p : String) : Bool :=
  decide (4 ≤ p.length) && !(stopWords.contains (strLower p))

/-- The member list of the Python set `filtered` built in step 4 from an
enumeration `cands` of the set `important_phrases`. -/
def filteredMembers (cands : List String) : List String :=
  cands.filter keepPhrase

/-- The sort key of step 5: `text.index(phrase)` with the `1e9` sentinel when
`index` raises `ValueError`. -/
def phrase_index (text phrase : String) : Nat :=
  match pyIndexOf text phrase with
  | some i => i
  | none => 1000000000

/-- Embedding of `extract_important_phrases` step 5:
`sorted(filtered, key=phrase_index)` applied to an iteration order
`filteredEnum` of the set `filtered`. -/
def extract_important_phrases (text : String) (filteredEnum : List String) : List String :=
  pySortBy (fun a b => decide (phrase_index text a ≤ phrase_index text b)) filteredEnum

/-! ## Table-name detection and validated sample-row fetch -/

/-- Model of `re.match(r'^\w+$', s) is not None`.  Python's `$` anchor also
matches just before a single trailing newline, so the match succeeds iff,
after dropping at most one trailing `'\n'`, the string is non-empty and all
its characters are `\w`. -/
def pyFullWordMatch (s : String) : Bool :=
  let core := if s.data.getLast? = some '\n' then s.data.dropLast else s.data
  !core.isEmpty && core.all isPyWordChar

/-- The SQL text built by `fetch_specific_table`:
`f"SELECT TOP {limit} * FROM {table_name};"`. -/
def sqlQuery (lim : Nat) (t : String) : String :=
  "SELECT TOP " ++ toString lim ++ " * FROM " ++ t ++ ";"

/-- The database collaborator: whether `connect_to_db` yields a connection and
what `cursor.execute(...)` / `fetchall()` produce for a query text (rows, or a
raised error's message).  Cursor creation is folded into `exec`. -/
structure DbOracle where
  connOk : Bool
  exec : String → Except String (List (List String))

/-- Observable outcome of one `fetch_specific_table` call: the value returned
to the caller, the SQL text passed to `cursor.execute` (if any), whether the
local `ValueError` branch ran (the exception is caught inside the function),
and the message of the caught exception (printed, not returned). -/
structure FetchResult where
  retval : List (List String)
  executedQuery : Option String
  caughtValueError : Bool
  caughtMsg : Option String

/-- Embedding of `api_integration.fetch_specific_table`.  On a missing
connection it returns `[]`; inside the `try` block a name failing
`re.match(r'^\w+$', ...)` raises `ValueError`, which the function's own
`except Exception` catches, printing the message and returning `[]`; otherwise
the query is built and executed, an execution error likewise being caught and
converted to `[]`. -/
def fetch_specific_table (db : DbOracle) (table_name : String) (lim : Nat) : FetchResult :=
  if !db.connOk then ⟨[], none, false, none⟩
  else if !pyFullWordMatch table_name then
    ⟨[], none, true, some "Invalid table name format."⟩
  else
    match db.exec (sqlQuery lim table_name) with
    | Except.error m => ⟨[], some (sqlQuery lim table_name), false, some m⟩
    | Except.ok rows => ⟨rows, some (sqlQuery lim table_name), false, none⟩

/-- Case-insensitive match of the literal `table` at the head of the list,
returning the remainder. -/
def stripTableLit : List Char → Option (List Char)
  | c1 :: c2 :: c3 :: c4 :: c5 :: rest =>
    if c1.toLower = 't' && c2.toLower = 'a' && c3.toLower = 'b' &&
        c4.toLower = 'l' && c5.toLower = 'e'
    then some rest else none
  | _ => none

/-- One attempt of `\btable\s+([a-zA-Z0-9_]+)` at the current position:
requires a word boundary (previous character not a word character), the
literal `table`, at least one whitespace character, then captures the maximal
run of `[A-Za-z0-9_]`. -/
def matchTableAt (prevIsWord : Bool) (s : List Char) : Option (List Char) :=
  if prevIsWord then none else
  match stripTableLit s with
  | none => none
  | some afterTable =>
    let sp := afterTable.takeWhile isPySpace
    let cap := (afterTable.drop sp.length).takeWhile asciiWordChar
    if sp.isEmpty || cap.isEmpty then none else some cap

/-- `re.search`: try the pattern at each position, left to right, tracking
whether the previous character was a word character (for `\b`). -/
def detectAux (prevIsWord : Bool) : List Char → Option (List Char)
  | [] => none
  | c :: rest =>
    match matchTableAt prevIsWord (c :: rest) with
    | some cap => some cap
    | none => detectAux (isPyWordChar c) rest

/-- Embedding of `api_integration.detect_table_name`:
`re.search(r'\btable\s+([a-zA-Z0-9_]+)', user_text, re.IGNORECASE)`,
returning group 1 of the first match, or `""`. -/
def detect_table_name (user_text : String) : String :=
  match detectAux false user_text.data with
  | some cap => String.mk cap
  | none => ""

/-! ## Generation orchestration: try/except wrapping and prompt assembly

Each generation function's entire `try` body (prompt assembly plus hosted
model call) is represented by an `Except String String`: `ok content` is the
model reply that the function returns (`.strip()`ed by the caller of the
hosted API before returning, which does not affect the error path), and
`error e` is a raised exception with message `e`. -/

/-- try/except of `api_integration.generate_system_designs`. -/
def generate_system_designs_wrap (body : Except String String) : String :=
  match body with
  | Except.ok content => content
  | Except.error e => "Error in generating system designs: " ++ e

/-- try/except of `api_integration.create_verification_requirements_models`. -/
def create_verification_requirements_models_wrap (body : Except String String) : String :=
  match body with
  | Except.ok content => content
  | Except.error e => "Error in generating verification requirements and models: " ++ e

/-- try/except of `api_integration.get_traceability`. -/
def get_traceability_wrap (body : Except String String) : String :=
  match body with
  | Except.ok content => content
  | Except.error e => "Error in generating traceability: " ++ e

/-- try/except of `api_integration.get_verification_conditions`. -/
def get_verification_conditions_wrap (body : Except String String) : String :=
  match body with
  | Except.ok content => content
  | Except.error e => "Error in generating verification conditions: " ++ e

/-- try/except of `api_integration_simple.generate_system_designs`. -/
def simple_generate_system_designs_wrap (body : Except String String) : String :=
  match body with
  | Except.ok content => content
  | Except.error e => "Error generating system designs: " ++ e

/-- try/except of `api_integration_simple.create_verification_requirements_models`. -/
def simple_create_verification_requirements_wrap (body : Except String String) : String :=
  match body with
  | Except.ok content => content
  | Except.error e => "Error generating verification requirements: " ++ e

/-- try/except of `api_integration_simple.get_traceability`. -/
def simple_get_traceability_wrap (body : Except String String) : String :=
  match body with
  | Except.ok content => content
  | Except.error e => "Error generating traceability: " ++ e

/-- try/except of `api_integration_simple.get_verification_conditions`. -/
def simple_get_verification_conditions_wrap (body : Except String String) : String :=
  match body with
  | Except.ok content => content
  | Except.error e => "Error generating verification conditions: " ++ e

/-- try/except of `api_integration_simple.generate_system_requirements`. -/
def simple_generate_system_requirements_wrap (body : Except String String) : String :=
  match body with
  | Except.ok content => content
  | Except.error e => "Error generating system requirements: " ++ e

/-- The PDF-append step shared verbatim by `generate_system_designs` and
`create_verification_requirements_models` (full module):
`processed_requirements += f"\nPDF data: {pdf_text}"` when a PDF source was
supplied.  `some t` models a supplied PDF whose extraction produced `t`
(`BytesIO` is always truthy, so any supplied PDF takes this branch). -/
def appendPdfData (processed : String) (pdfText : Option String) : String :=
  match pdfText with
  | some t => processed ++ "\nPDF data: " ++ t
  | none => processed

/-- The fixed instruction block closing the `generate_system_designs`
f-string template. -/
def designTail : String :=
  "\n\nGenerate a concise system design document (500 words) that includes:\n1. A mathematical description of the system requirements (use LaTeX for any math equations, e.g. $$E=mc^2$$, and include tables as regular HTML).\n2. Acceptable system designs with formal proofs (using key properties and homomorphism).\n3. Unacceptable designs with proofs outlining discrepancies.\n4. Recommendations for improvement.\n5. A formal proof of homomorphism demonstrating equivalence between requirements and designs.\n6. Rely on the prompts that the user sends to create the response, not the examples e.g. flashlight.\n \nIMPORTANT:\n- DO NOT use any generic or fallback examples like the flashlight unless specified, look at the USERS INPUT ONLY and reference it with SQL/PDF data\n- Clearly label each section with appropriate headings.\n- Ensure any defined mathematical expressions are formatted in LaTeX.\n- Keep the response self-contained and data-driven.\n        "

/-- The f-string template of `generate_system_designs` (full module), with the
interpolated pieces as parameters.  `tableStructureStr` is the Python
`str(table_structure)` rendering; `tds` is `table_data_string`. -/
def designQueryText (processed exampleReqs exampleDesigns tableStructureStr tds : String) : String :=
  "\nUser Requirements (enhanced):\n" ++ processed ++
  "\n\nReference Requirements:\n" ++ exampleReqs ++
  "\n\nReference Designs:\n" ++ exampleDesigns ++
  "\n\nDatabase Structure:\n" ++ tableStructureStr ++
  "\n\n" ++ tds ++
  designTail

/-- The fixed instruction block closing the
`create_verification_requirements_models` f-string template.
(`\x7b`-free; `\x27` is an apostrophe.) -/
def verifTail : String :=
  "\n\nGenerate a concise verification requirements document (500 words) that includes:\n1. Detailed verification problem spaces with proofs of morphism to the system requirements.\n2. Verification models with proofs indicating adherence to these problem spaces.\n3. A formal yes/no proof of homomorphism demonstrating equivalence between system designs and verification requirements.\n\nIMPORTANT:\n- DO NOT use any generic or fallback examples like the flashlight unless specified, look at the USERS INPUT ONLY and reference it with SQL/PDF data\n- Clearly label every section (for example, \x27Verification Problem Spaces\x27, \x27Verification Models\x27, etc.).\n- Format any defined mathematical expressions correctly.\n- Keep the response self-contained and data-driven.\n        "

/-- The f-string template of `create_verification_requirements_models` (full
module). -/
def verifQueryText (processed exampleSystemReqs exampleVerifReqs exampleDesigns : String) : String :=
  "\nEnhanced System Requirements:\n" ++ processed ++
  "\n\nReference Requirements:\n" ++ exampleSystemReqs ++
  "\n\nReference Verification Examples:\n" ++ exampleVerifReqs ++
  "\n\nReference Designs:\n" ++ exampleDesigns ++
  verifTail

/-- The prompt assembled by `generate_system_designs` (full module): enriched
text with the PDF excerpt appended, interpolated into the design template. -/
def generate_system_designs_prompt (enhanced : String) (pdfText : Option String)
    (exampleReqs exampleDesigns tableStructureStr tds : String) : String :=
  designQueryText (appendPdfData enhanced pdfText) exampleReqs exampleDesigns tableStructureStr tds

/-- The prompt assembled by `create_verification_requirements_models`. -/
def create_verification_requirements_prompt (enhanced : String) (pdfText : Option String)
    (exampleSystemReqs exampleVerifReqs exampleDesigns : String) : String :=
  verifQueryText (appendPdfData enhanced pdfText) exampleSystemReqs exampleVerifReqs exampleDesigns

/-! ## Concrete oracles and inputs used by witnesses and counterexamples -/

/-- A database oracle whose connection succeeds and whose queries succeed with
no rows. -/
def dbAlwaysOk : DbOracle :=
  ⟨true, fun _ => Except.ok []⟩

/-- A database oracle whose connection succeeds but whose query execution
always raises. -/
def dbAlwaysFail : DbOracle :=
  ⟨true, fun _ => Except.error "upstream database failure"⟩

/-- A 20-token requirement text that happens to contain the brevity note
verbatim. -/
def noteTrap : String :=
  "a b c d e f g h [Note: The input is brief; more detail may yield a richer design.]"

/-! ## Helper lemmas -/

theorem listPre_append (p r : List Char) : listPre p (p ++ r) = true := by
  induction p with
  | nil => rfl
  | cons a as ih => simp [listPre, ih]

theorem errWrapProps (lit e : String) :
    strBegins lit (lit ++ e) = true ∧ ∃ p, (lit ++ e).data = p ++ e.data := by
  constructor
  · unfold strBegins
    rw [String.data_append]
    exact listPre_append _ _
  · exact ⟨lit.data, by rw [String.data_append]⟩

theorem pyInsert_perm {α : Type} (le : α → α → Bool) (x : α) :
    ∀ l : List α, (pyInsert le x l).Perm (x :: l)
  | [] => List.Perm.refl _
  | y :: ys => by
    unfold pyInsert
    split
    · exact List.Perm.refl _
    · exact ((pyInsert_perm le x ys).cons y).trans (List.Perm.swap x y ys)

theorem pySortBy_perm {α : Type} (le : α → α → Bool) :
    ∀ l : List α, (pySortBy le l).Perm l
  | [] => List.Perm.refl _
  | x :: xs =>
    (pyInsert_perm le x (pySortBy le xs)).trans ((pySortBy_perm le xs).cons x)

theorem pyInsert_pairwise {α : Type} {le : α → α → Bool}
    (htot : ∀ a b, le a b = false → le b a = true)
    (htrans : ∀ a b c, le a b = true → le b c = true → le a c = true) (x : α) :
    ∀ l : List α, List.Pairwise (fun a b => le a b = true) l →
      List.Pairwise (fun a b => le a b = true) (pyInsert le x l)
  | [], _ => by simp [pyInsert]
  | y :: ys, h => by
    rw [List.pairwise_cons] at h
    obtain ⟨hy, hys⟩ := h
    unfold pyInsert
    split
    next hxy =>
      refine List.pairwise_cons.mpr ⟨?_, List.pairwise_cons.mpr ⟨hy, hys⟩⟩
      intro z hz
      rcases List.mem_cons.mp hz with rfl | hz
      · exact hxy
      · exact htrans x y z hxy (hy z hz)
    next hxy =>
      have hxy' : le x y = false := by revert hxy; cases le x y <;> simp
      refine List.pairwise_cons.mpr ⟨?_, pyInsert_pairwise htot htrans x ys hys⟩
      intro z hz
      have hz' := (pyInsert_perm le x ys).mem_iff.mp hz
      rcases List.mem_cons.mp hz' with hzx | hz'
      · rw [hzx]; exact htot x y hxy'
      · exact hy z hz'

theorem pySortBy_pairwise {α : Type} {le : α → α → Bool}
    (htot : ∀ a b, le a b = false → le b a = true)
    (htrans : ∀ a b c, le a b = true → le b c = true → le a c = true) :
    ∀ l : List α, List.Pairwise (fun a b => le a b = true) (pySortBy le l)
  | [] => List.Pairwise.nil
  | x :: xs =>
    pyInsert_pairwise htot htrans x (pySortBy le xs) (pySortBy_pairwise htot htrans xs)

/-! ## C1: error wrapping of the generation calls -/

/-- C1 counterexample: with a mocked hosted-model call raising `boom`, the full
module's `generate_system_designs` returns
`"Error in generating system designs: boom"`, which does not begin with
`"Error generating"` as the claim requires. -/
theorem c1_counterexample :
    generate_system_designs_wrap (Except.error "boom")
        = "Error in generating system designs: boom" ∧
    strBegins "Error generating" (generate_system_designs_wrap (Except.error "boom")) = false := by
  decide

/-- C1 (amended): on any raised exception each generation function catches it
and returns an error string that contains the underlying message; in
`api_integration_simple.py` the string begins with `"Error generating"`, while
in `api_integration.py` it begins with `"Error in generating"`.  No exception
propagates (the wrappers are total functions into `String`). -/
theorem c1_error_wrapping_amended (e : String) :
    (strBegins "Error in generating system designs: "
        (generate_system_designs_wrap (Except.error e)) = true
      ∧ ∃ p, (generate_system_designs_wrap (Except.error e)).data = p ++ e.data) ∧
    (strBegins "Error in generating verification requirements and models: "
        (create_verification_requirements_models_wrap (Except.error e)) = true
      ∧ ∃ p, (create_verification_requirements_models_wrap (Except.error e)).data = p ++ e.data) ∧
    (strBegins "Error in generating traceability: "
        (get_traceability_wrap (Except.error e)) = true
      ∧ ∃ p, (get_traceability_wrap (Except.error e)).data = p ++ e.data) ∧
    (strBegins "Error in generating verification conditions: "
        (get_verification_conditions_wrap (Except.error e)) = true
      ∧ ∃ p, (get_verification_conditions_wrap (Except.error e)).data = p ++ e.data) ∧
    (strBegins "Error generating system designs: "
        (simple_generate_system_designs_wrap (Except.error e)) = true
      ∧ ∃ p, (simple_generate_system_designs_wrap (Except.error e)).data = p ++ e.data) ∧
    (strBegins "Error generating verification requirements: "
        (simple_create_verification_requirements_wrap (Except.error e)) = true
      ∧ ∃ p, (simple_create_verification_requirements_wrap (Except.error e)).data = p ++ e.data) ∧
    (strBegins "Error generating traceability: "
        (simple_get_traceability_wrap (Except.error e)) = true
      ∧ ∃ p, (simple_get_traceability_wrap (Except.error e)).data = p ++ e.data) ∧
    (strBegins "Error generating verification conditions: "
        (simple_get_verification_conditions_wrap (Except.error e)) = true
      ∧ ∃ p, (simple_get_verification_conditions_wrap (Except.error e)).data = p ++ e.data) ∧
    (strBegins "Error generating system requirements: "
        (simple_generate_system_requirements_wrap (Except.error e)) = true
      ∧ ∃ p, (simple_generate_system_requirements_wrap (Except.error e)).data = p ++ e.data) :=
  ⟨errWrapProps _ e, errWrapProps _ e, errWrapProps _ e, errWrapProps _ e,
    errWrapProps _ e, errWrapProps _ e, errWrapProps _ e, errWrapProps _ e, errWrapProps _ e⟩

/-! ## C2: table-name validation before query execution -/

/-- C2 counterexample: the candidate `"abc\n"` contains a newline, a character
outside `[A-Za-z0-9_]`, yet `re.match(r'^\w+$', ...)` accepts it (`$` matches
before a single trailing newline), so the SQL text is built and passed to
`cursor.execute`. -/
theorem c2_counterexample :
    ('\n' ∈ "abc\n".data ∧ asciiWordChar '\n' = false) ∧
    (fetch_specific_table dbAlwaysOk "abc\n" 5).executedQuery
        = some "SELECT TOP 5 * FROM abc\n;" := by
  decide

/-- C2 (amended): whenever the candidate fails Python's `^\w+$` match — that
is, after tolerating at most one trailing newline it is empty or contains a
character outside Python's `\w` class — `fetch_specific_table` rejects it
before any SQL text reaches execution, and the caller receives `[]`.  (The
match is weaker than the claim's `[A-Za-z0-9_]`-only condition: a single
trailing newline and non-ASCII word characters slip through.) -/
theorem c2_validation_amended (db : DbOracle) (t : String) (lim : Nat)
    (h : pyFullWordMatch t = false) :
    (fetch_specific_table db t lim).executedQuery = none ∧
    (fetch_specific_table db t lim).retval = [] := by
  cases hc : db.connOk <;> simp [fetch_specific_table, hc, h]

theorem c2_validation_amended_witness :
    pyFullWordMatch "students; drop table x" = false ∧
    (fetch_specific_table dbAlwaysOk "students; drop table x" 5).executedQuery = none :=
  ⟨by decide, (c2_validation_amended dbAlwaysOk "students; drop table x" 5 (by decide)).1⟩

/-! ## C4: visibility of the validation error to the caller -/

/-- C4 counterexample: a malformed identifier (`"bad name!"`) takes the
`ValueError` branch, but the function's own `except Exception` catches it and
returns `[]` — exactly the value returned for an upstream database failure on
a well-formed name — so the caller cannot distinguish the two cases. -/
theorem c4_counterexample :
    (fetch_specific_table dbAlwaysOk "bad name!" 5).caughtValueError = true ∧
    (fetch_specific_table dbAlwaysOk "bad name!" 5).retval = [] ∧
    (fetch_specific_table dbAlwaysFail "students" 5).caughtValueError = false ∧
    (fetch_specific_table dbAlwaysFail "students" 5).retval = [] := by
  decide

/-- C4 (amended): on a malformed identifier (with a live connection) the
validation raises `ValueError` locally, but that exception is caught by the
function's own handler: no query is executed, the message
`"Invalid table name format."` is only printed, and the caller receives the
same absence value `[]` as for an upstream failure — the rejection is not
caller-visible. -/
theorem c4_validation_caught_amended (db : DbOracle) (t : String) (lim : Nat)
    (hc : db.connOk = true) (h : pyFullWordMatch t = false) :
    fetch_specific_table db t lim
      = ⟨[], none, true, some "Invalid table name format."⟩ := by
  simp [fetch_specific_table, hc, h]

theorem c4_validation_caught_amended_witness :
    fetch_specific_table dbAlwaysOk "bad name!" 5
      = ⟨[], none, true, some "Invalid table name format."⟩ :=
  c4_validation_caught_amended dbAlwaysOk "bad name!" 5 rfl (by decide)

/-! ## C10: detected table names always pass validation -/

theorem asciiWord_to_py (c : Char) (h : asciiWordChar c = true) : isPyWordChar c = true := by
  simp [isPyWordChar, h]

theorem takeWhile_all_self (p : Char → Bool) (l : List Char) :
    (l.takeWhile p).all p = true := by
  induction l with
  | nil => rfl
  | cons a t ih =>
    cases hp : p a <;> simp [List.takeWhile_cons, hp, ih]

theorem matchTableAt_sound (b : Bool) (s cap : List Char)
    (h : matchTableAt b s = some cap) : cap ≠ [] ∧ cap.all asciiWordChar = true := by
  simp only [matchTableAt] at h
  split at h
  · exact absurd h (by simp)
  · cases hst : stripTableLit s with
    | none => rw [hst] at h; exact absurd h (by simp)
    | some afterTable =>
      rw [hst] at h
      simp only at h
      split at h
      · exact absurd h (by simp)
      · next hcond =>
        obtain rfl := Option.some.inj h
        refine ⟨?_, takeWhile_all_self _ _⟩
        intro hnil
        exact hcond (by simp [hnil])

theorem detectAux_sound : ∀ (l : List Char) (b : Bool) (cap : List Char),
    detectAux b l = some cap → cap ≠ [] ∧ cap.all asciiWordChar = true
  | [], _, cap => by intro h; exact absurd h (by simp [detectAux])
  | c :: rest, b, cap => by
    intro h
    unfold detectAux at h
    cases hm : matchTableAt b (c :: rest) with
    | some cap' =>
      rw [hm] at h
      simp only at h
      obtain rfl := Option.some.inj h
      exact matchTableAt_sound _ _ _ hm
    | none =>
      rw [hm] at h
      simp only at h
      exact detectAux_sound rest _ cap h

/-- C10: `detect_table_name` returns `""` or a capture consisting solely of
`[A-Za-z0-9_]` characters (the regex capture class), and any non-empty result
passes `fetch_specific_table`'s `^\w+$` validation — the invalid-name branch
can never be triggered by a detected name. -/
theorem c10_detected_name_safe (s : String) (db : DbOracle) (lim : Nat) :
    (detect_table_name s).data.all asciiWordChar = true ∧
    (detect_table_name s = "" ∨
      (fetch_specific_table db (detect_table_name s) lim).caughtValueError = false) := by
  unfold detect_table_name
  cases hd : detectAux false s.data with
  | none => exact ⟨rfl, Or.inl rfl⟩
  | some cap =>
    obtain ⟨hne, hall⟩ := detectAux_sound _ _ _ hd
    refine ⟨hall, Or.inr ?_⟩
    have hlast : ¬ cap.getLast? = some '\n' := by
      intro hcontra
      have hx : '\n' ∈ cap.getLast? := by rw [Option.mem_def]; exact hcontra
      obtain ⟨hcne, hx2⟩ := List.mem_getLast?_eq_getLast hx
      have hmem : '\n' ∈ cap := hx2 ▸ List.getLast_mem hcne
      have := List.all_eq_true.mp hall _ hmem
      simp [asciiWordChar] at this
    have hif : (if cap.getLast? = some '\n' then cap.dropLast else cap) = cap :=
      if_neg hlast
    have hallpy : cap.all isPyWordChar = true :=
      List.all_eq_true.mpr (fun c hc => asciiWord_to_py c (List.all_eq_true.mp hall c hc))
    have hmatch : pyFullWordMatch (String.mk cap) = true := by
      simp only [pyFullWordMatch]
      rw [hif]
      cases cap with
      | nil => exact absurd rfl hne
      | cons c0 ct =>
        simp only [List.isEmpty_cons, Bool.not_false, Bool.true_and]
        exact hallpy
    cases hc : db.connOk
    · simp [fetch_specific_table, hc]
    · simp only [fetch_specific_table, hc, hmatch]
      cases db.exec (sqlQuery lim (String.mk cap)) <;> simp

/-! ## C6: ordering of the Phrase Importance Filter output

Every candidate phrase the program can produce is `chunk.text.strip()`,
`ent.text.strip()` or `sent.text.strip()` for a spaCy span of `text`; spans
are verbatim slices of the document text and stripping a substring yields a
substring, so `text.index(phrase)` never raises and `phrase_index` always
returns the true first-occurrence index.  The ordering theorem records this
realizability fact as the hypothesis that every filtered phrase occurs in the
text. -/

theorem extract_pairwise_key (text : String) (filt : List String) :
    List.Pairwise (fun a b => phrase_index text a ≤ phrase_index text b)
      (extract_important_phrases text filt) := by
  have htot : ∀ a b : String,
      (decide (phrase_index text a ≤ phrase_index text b)) = false →
      (decide (phrase_index text b ≤ phrase_index text a)) = true := by
    intro a b hf
    exact decide_eq_true (Nat.le_of_not_le (of_decide_eq_false hf))
  have htrans : ∀ a b c : String,
      (decide (phrase_index text a ≤ phrase_index text b)) = true →
      (decide (phrase_index text b ≤ phrase_index text c)) = true →
      (decide (phrase_index text a ≤ phrase_index text c)) = true := by
    intro a b c h1 h2
    exact decide_eq_true (Nat.le_trans (of_decide_eq_true h1) (of_decide_eq_true h2))
  exact (pySortBy_pairwise htot htrans filt).imp (fun hab => of_decide_eq_true hab)

/-- C6: over phrases that all occur verbatim in the text (as the stripped
spaCy spans feeding the filter always do), the Phrase Importance Filter output
places a phrase whose first occurrence has a strictly lower index strictly
earlier than one with a higher index (first conjunct), and every output phrase
not found verbatim appears after all found phrases (second conjunct) — the
latter vacuously, since under the realizability hypothesis no output phrase is
not-found (third conjunct), so the code's `1e9` fallback never fires. -/
theorem c6_found_phrase_ordering (text : String) (cands filt : List String)
    (_henum : PySetEnum (filteredMembers cands) filt)
    (hfound : ∀ p ∈ filt, ¬ pyIndexOf text p = none) :
    (∀ i j : Fin (extract_important_phrases text filt).length,
        phrase_index text ((extract_important_phrases text filt).get i)
          < phrase_index text ((extract_important_phrases text filt).get j) →
        i < j) ∧
    (∀ i j : Fin (extract_important_phrases text filt).length,
        pyIndexOf text ((extract_important_phrases text filt).get i) = none →
        ¬ pyIndexOf text ((extract_important_phrases text filt).get j) = none →
        j < i) ∧
    (∀ p ∈ extract_important_phrases text filt, ¬ pyIndexOf text p = none) := by
  have hperm := pySortBy_perm
    (fun a b => decide (phrase_index text a ≤ phrase_index text b)) filt
  have hout : ∀ p ∈ extract_important_phrases text filt, ¬ pyIndexOf text p = none :=
    fun p hp => hfound p (hperm.mem_iff.mp hp)
  have hget := List.pairwise_iff_get.mp (extract_pairwise_key text filt)
  refine ⟨?_, ?_, hout⟩
  · intro i j h
    rcases Nat.lt_trichotomy (i : Nat) (j : Nat) with hij | hij | hij
    · exact hij
    · rw [Fin.ext hij] at h
      exact absurd h (lt_irrefl _)
    · exact absurd (hget j i hij) (not_le_of_lt h)
  · intro i j hnone _
    exact absurd hnone (hout _ (List.get_mem _ _ i.isLt))

theorem c6_found_phrase_ordering_witness :
    (∀ i j : Fin (extract_important_phrases "zzzz abcd" ["abcd", "zzzz"]).length,
        phrase_index "zzzz abcd"
            ((extract_important_phrases "zzzz abcd" ["abcd", "zzzz"]).get i)
          < phrase_index "zzzz abcd"
            ((extract_important_phrases "zzzz abcd" ["abcd", "zzzz"]).get j) →
        i < j) ∧
    (∀ i j : Fin (extract_important_phrases "zzzz abcd" ["abcd", "zzzz"]).length,
        pyIndexOf "zzzz abcd"
            ((extract_important_phrases "zzzz abcd" ["abcd", "zzzz"]).get i) = none →
        ¬ pyIndexOf "zzzz abcd"
            ((extract_important_phrases "zzzz abcd" ["abcd", "zzzz"]).get j) = none →
        j < i) ∧
    (∀ p ∈ extract_important_phrases "zzzz abcd" ["abcd", "zzzz"],
        ¬ pyIndexOf "zzzz abcd" p = none) := by
  have hfm : filteredMembers ["abcd", "zzzz"] = ["abcd", "zzzz"] := by decide
  exact c6_found_phrase_ordering "zzzz abcd" ["abcd", "zzzz"] ["abcd", "zzzz"]
    ⟨by decide, fun x => by rw [hfm]⟩ (by decide)

/-! ## C5 and C7: key-phrase line and post-filter properties -/

theorem lexLe_total : ∀ p q : List Char, lexLe p q = true ∨ lexLe q p = true
  | [], _ => Or.inl rfl
  | _ :: _, [] => Or.inr rfl
  | a :: as, b :: bs => by
    by_cases hab : a = b
    · subst hab
      rcases lexLe_total as bs with h | h
      · exact Or.inl (by simp [lexLe, h])
      · exact Or.inr (by simp [lexLe, h])
    · have hba : ¬ b = a := fun h => hab h.symm
      rcases lt_trichotomy a b with h | h | h
      · exact Or.inl (by simp [lexLe, hab, h])
      · exact absurd h hab
      · exact Or.inr (by simp [lexLe, hba, h])

theorem lexLe_trans : ∀ p q r : List Char,
    lexLe p q = true → lexLe q r = true → lexLe p r = true
  | [], _, _, _, _ => rfl
  | _ :: _, [], _, h1, _ => by simp [lexLe] at h1
  | _ :: _, _ :: _, [], _, h2 => by simp [lexLe] at h2
  | a :: as, b :: bs, c :: cs, h1, h2 => by
    by_cases hab : a = b <;> by_cases hbc : b = c
    · subst hab; subst hbc
      simp only [lexLe, if_pos rfl] at h1 h2 ⊢
      exact lexLe_trans as bs cs h1 h2
    · subst hab
      simp only [lexLe, if_pos rfl, if_neg hbc, decide_eq_true_eq] at h2
      have hac : ¬ a = c := ne_of_lt h2
      simp only [lexLe, if_neg hac, decide_eq_true_eq]
      exact h2
    · subst hbc
      simp only [lexLe, if_neg hab, decide_eq_true_eq] at h1
      simp only [lexLe, if_neg hab, decide_eq_true_eq]
      exact h1
    · simp only [lexLe, if_neg hab, decide_eq_true_eq] at h1
      simp only [lexLe, if_neg hbc, decide_eq_true_eq] at h2
      have hac : a < c := lt_trans h1 h2
      simp only [lexLe, if_neg (ne_of_lt hac), decide_eq_true_eq]
      exact hac

theorem strLe_total (a b : String) (h : strLe a b = false) : strLe b a = true := by
  rcases lexLe_total a.data b.data with h' | h'
  · rw [strLe] at h; rw [h'] at h; exact absurd h (by simp)
  · exact h'

theorem strLe_trans (a b c : String) (h1 : strLe a b = true) (h2 : strLe b c = true) :
    strLe a c = true :=
  lexLe_trans a.data b.data c.data h1 h2

theorem keyPhraseMembers_trimmed (chunks ents : List String) (p : String)
    (hp : p ∈ keyPhraseMembers chunks ents) : ∃ q ∈ chunks ++ ents, p = pyStrip q := by
  have hp' := List.mem_dedup.mp hp
  rcases List.mem_append.mp hp' with h | h
  · obtain ⟨q, hq, rfl⟩ := List.mem_map.mp h
    exact ⟨q, List.mem_append.mpr (Or.inl hq), rfl⟩
  · obtain ⟨q, hq, rfl⟩ := List.mem_map.mp h
    exact ⟨q, List.mem_append.mpr (Or.inr hq), rfl⟩

/-- C5 counterexample: `["the beta", "the alpha"]` is a legitimate iteration
order of the key-phrase set built from the noun chunks `"the beta"` and
`"the alpha"`, and with it the full module's `enhance_user_requirements` emits
the `Key concepts:` line as `"the beta, the alpha"` — not in sorted order
(`"the beta" ≤ "the alpha"` is false): the join runs over the unsorted Python
set. -/
theorem c5_counterexample :
    PySetEnum (keyPhraseMembers ["the beta", "the alpha"] []) ["the beta", "the alpha"] ∧
    enhance_user_requirements "design the beta and the alpha" ["the beta", "the alpha"]
      = "design the beta and the alpha\nKey concepts: the beta, the alpha" ++ briefNote ∧
    strLe "the beta" "the alpha" = false := by
  have hfm : keyPhraseMembers ["the beta", "the alpha"] [] = ["the beta", "the alpha"] := by
    decide
  exact ⟨⟨by decide, fun x => by rw [hfm]⟩, by decide, by decide⟩

/-- C5 (amended): the key-concepts phrases are whitespace-trimmed values of the
extractor's chunks/entities, deduplicated by exact string value; the simple
module (`api_integration_simple.py`) lists them sorted in code-point order and
appends them after the trimmed input as a `"\nKey concepts: "` line, while the
full module (`api_integration.py`) appends the same set in the set's
(unspecified, not necessarily sorted) iteration order. -/
theorem c5_keyconcepts_amended (text : String) (chunks ents ord : List String)
    (hord : PySetEnum (keyPhraseMembers chunks ents) ord) :
    (simpleKeyPhrases chunks ents).Nodup ∧
    List.Pairwise (fun a b => strLe a b = true) (simpleKeyPhrases chunks ents) ∧
    (∀ p ∈ simpleKeyPhrases chunks ents, ∃ q ∈ chunks ++ ents, p = pyStrip q) ∧
    (¬ simpleKeyPhrases chunks ents = [] →
      ∃ r, enhance_user_requirements_simple text chunks ents
          = (pyStrip text ++ "\nKey concepts: " ++ joinComma (simpleKeyPhrases chunks ents)) ++ r) ∧
    ord.Nodup ∧
    (∀ p ∈ ord, ∃ q ∈ chunks ++ ents, p = pyStrip q) ∧
    (¬ ord = [] →
      ∃ r, enhance_user_requirements text ord
          = (pyStrip text ++ "\nKey concepts: " ++ joinComma ord) ++ r) := by
  obtain ⟨hnd, hmem⟩ := hord
  have hperm := pySortBy_perm strLe (keyPhraseMembers chunks ents)
  refine ⟨?_, ?_, ?_, ?_, hnd, ?_, ?_⟩
  · exact (hperm.nodup_iff).mpr (List.nodup_dedup _)
  · exact pySortBy_pairwise strLe_total strLe_trans _
  · intro p hp
    exact keyPhraseMembers_trimmed chunks ents p (hperm.mem_iff.mp hp)
  · intro hne
    have hE : (simpleKeyPhrases chunks ents).isEmpty = false := by
      rw [← Bool.not_eq_true, List.isEmpty_iff]; exact hne
    by_cases hwc : pyWordCount text < 20
    · exact ⟨briefNote, by simp [enhance_user_requirements_simple, enhanceBaseSimple, hE, hwc]⟩
    · exact ⟨"", by simp [enhance_user_requirements_simple, enhanceBaseSimple, hE, hwc]⟩
  · intro p hp
    exact keyPhraseMembers_trimmed chunks ents p ((hmem p).mp hp)
  · intro hne
    have hE : ord.isEmpty = false := by
      rw [← Bool.not_eq_true, List.isEmpty_iff]; exact hne
    by_cases hwc : pyWordCount text < 20
    · exact ⟨briefNote, by simp [enhance_user_requirements, enhanceBase, hE, hwc]⟩
    · exact ⟨"", by simp [enhance_user_requirements, enhanceBase, hE, hwc]⟩

theorem c5_keyconcepts_amended_witness :
    (∃ r, enhance_user_requirements_simple "the beta and the alpha" ["the beta", "the alpha"] []
        = (pyStrip "the beta and the alpha" ++ "\nKey concepts: "
            ++ joinComma (simpleKeyPhrases ["the beta", "the alpha"] [])) ++ r) ∧
    (∃ r, enhance_user_requirements "the beta and the alpha" ["the beta", "the alpha"]
        = (pyStrip "the beta and the alpha" ++ "\nKey concepts: "
            ++ joinComma ["the beta", "the alpha"]) ++ r) := by
  have hfm : keyPhraseMembers ["the beta", "the alpha"] [] = ["the beta", "the alpha"] := by
    decide
  have h := c5_keyconcepts_amended "the beta and the alpha" ["the beta", "the alpha"] []
    ["the beta", "the alpha"] ⟨by decide, fun x => by rw [hfm]⟩
  exact ⟨h.2.2.2.1 (by decide), h.2.2.2.2.2.2 (by decide)⟩

/-- C7: every phrase in the Phrase Importance Filter's output has length at
least 4 characters, is not case-insensitively equal to a stop word, and the
output lists each distinct phrase at most once (`filt` being an iteration
order of the Python set `filtered` built by the step-4 post-filter from an
enumeration `cands` of the candidate set). -/
theorem c7_postfilter (text : String) (cands filt : List String)
    (h : PySetEnum (filteredMembers cands) filt) :
    (∀ p ∈ extract_important_phrases text filt,
        4 ≤ p.length ∧ stopWords.contains (strLower p) = false) ∧
    (extract_important_phrases text filt).Nodup := by
  obtain ⟨hnd, hmem⟩ := h
  have hperm := pySortBy_perm
    (fun a b => decide (phrase_index text a ≤ phrase_index text b)) filt
  constructor
  · intro p hp
    have hpf : p ∈ filt := hperm.mem_iff.mp hp
    have hin : p ∈ filteredMembers cands := (hmem p).mp hpf
    have hk : keepPhrase p = true := (List.mem_filter.mp hin).2
    rw [keepPhrase, Bool.and_eq_true] at hk
    exact ⟨of_decide_eq_true hk.1, by simpa using hk.2⟩
  · exact (hperm.nodup_iff).mpr hnd

theorem c7_postfilter_witness :
    (∀ p ∈ extract_important_phrases "z" ["abcd"],
        4 ≤ p.length ∧ stopWords.contains (strLower p) = false) ∧
    (extract_important_phrases "z" ["abcd"]).Nodup := by
  have hfm : filteredMembers ["abcd", "it"] = ["abcd"] := by decide
  exact c7_postfilter "z" ["abcd", "it"] ["abcd"] ⟨by decide, fun x => by rw [hfm]⟩

/-! ## C8 and C9: brevity note and trimmed-prefix structure of EnrichedText -/

/-- C8 counterexample: a 20-token input that itself ends with the brevity note
text produces (for any phrase enumeration, here the realizable `["The input"]`)
an EnrichedText that still CONTAINS the note, although the claim demands that
EnrichedText of 20-or-more-token inputs not contain it.  (The code merely does
not APPEND the note in this case.) -/
theorem c8_counterexample :
    20 ≤ pyWordCount noteTrap ∧
    PySetEnum (keyPhraseMembers ["The input"] []) ["The input"] ∧
    "[Note: The input is brief; more detail may yield a richer design.]".data
      <:+: (enhance_user_requirements noteTrap ["The input"]).data := by
  have hfm : keyPhraseMembers ["The input"] [] = ["The input"] := by decide
  exact ⟨by decide, ⟨by decide, fun x => by rw [hfm]⟩, by decide⟩

/-- C8 (amended): for inputs with fewer than 20 whitespace-separated tokens
the EnrichedText of both modules ends with the fixed brevity note; for inputs
with 20 or more tokens the note is not appended — the EnrichedText equals the
pre-note enrichment (so it contains the note only if the trimmed input or the
key-concepts line already contains it). -/
theorem c8_brevity_amended (t : String) (ord chunks ents : List String) :
    (pyWordCount t < 20 →
      (∃ p, enhance_user_requirements t ord = p ++ briefNote) ∧
      (∃ p, enhance_user_requirements_simple t chunks ents = p ++ briefNote)) ∧
    (20 ≤ pyWordCount t →
      enhance_user_requirements t ord = enhanceBase t ord ∧
      enhance_user_requirements_simple t chunks ents = enhanceBaseSimple t chunks ents) := by
  constructor
  · intro h
    exact ⟨⟨enhanceBase t ord, by simp [enhance_user_requirements, h]⟩,
      ⟨enhanceBaseSimple t chunks ents, by simp [enhance_user_requirements_simple, h]⟩⟩
  · intro h
    have h' : ¬ pyWordCount t < 20 := by omega
    exact ⟨by simp [enhance_user_requirements, h'],
      by simp [enhance_user_requirements_simple, h']⟩

theorem c8_brevity_amended_witness :
    (∃ p, enhance_user_requirements "hi" [] = p ++ briefNote) ∧
    enhance_user_requirements "a b c d e f g h i j k l m n o p q r s t" []
      = enhanceBase "a b c d e f g h i j k l m n o p q r s t" [] :=
  ⟨((c8_brevity_amended "hi" [] [] []).1 (by decide)).1,
    ((c8_brevity_amended "a b c d e f g h i j k l m n o p q r s t" [] [] []).2 (by decide)).1⟩

theorem enhanceBase_split (t : String) (ord : List String) :
    ∃ r, enhanceBase t ord = pyStrip t ++ r := by
  unfold enhanceBase
  split
  · exact ⟨"", by simp⟩
  · exact ⟨"\nKey concepts: " ++ joinComma ord, by rw [String.append_assoc]⟩

theorem enhance_split (t : String) (ord : List String) :
    ∃ r, enhance_user_requirements t ord = pyStrip t ++ r := by
  obtain ⟨r, hr⟩ := enhanceBase_split t ord
  unfold enhance_user_requirements
  split
  · exact ⟨r ++ briefNote, by rw [hr, String.append_assoc]⟩
  · exact ⟨r, hr⟩

theorem enhanceBaseSimple_split (t : String) (chunks ents : List String) :
    ∃ r, enhanceBaseSimple t chunks ents = pyStrip t ++ r := by
  unfold enhanceBaseSimple
  split
  · exact ⟨"", by simp⟩
  · exact ⟨"\nKey concepts: " ++ joinComma (simpleKeyPhrases chunks ents),
      by rw [String.append_assoc]⟩

theorem enhance_simple_split (t : String) (chunks ents : List String) :
    ∃ r, enhance_user_requirements_simple t chunks ents = pyStrip t ++ r := by
  obtain ⟨r, hr⟩ := enhanceBaseSimple_split t chunks ents
  unfold enhance_user_requirements_simple
  split
  · exact ⟨r ++ briefNote, by rw [hr, String.append_assoc]⟩
  · exact ⟨r, hr⟩

/-- C9: for every non-empty input, the EnrichedText of both modules starts
with the whitespace-trimmed original text: it equals `pyStrip t` followed by a
(possibly empty) remainder. -/
theorem c9_trimmed_prefix (t : String) (ord chunks ents : List String) (h : ¬ t = "") :
    (∃ r, enhance_user_requirements t ord = pyStrip t ++ r) ∧
    (∃ r, enhance_user_requirements_simple t chunks ents = pyStrip t ++ r) :=
  ⟨enhance_split t ord, enhance_simple_split t chunks ents⟩

theorem c9_trimmed_prefix_witness :
    (¬ "hi" = "") ∧
    ((∃ r, enhance_user_requirements "hi" [] = pyStrip "hi" ++ r) ∧
      (∃ r, enhance_user_requirements_simple "hi" [] [] = pyStrip "hi" ++ r)) :=
  ⟨by decide, c9_trimmed_prefix "hi" [] [] [] (by decide)⟩

/-! ## C3: the PDF excerpt in the assembled prompts -/

set_option maxRecDepth 4000000 in
/-- C3 counterexample: nothing truncates the extracted PDF text.  With a
1001-character extraction, the assembled design prompt differs from the prompt
assembled from the 1000-character truncation (which the claim requires them to
coincide with); likewise for the verification prompt at 801 versus 800
characters. -/
theorem c3_counterexample :
    generate_system_designs_prompt "" (some (String.mk (List.replicate 1001 'a'))) "" "" "" ""
      ≠ generate_system_designs_prompt "" (some (String.mk (List.replicate 1000 'a'))) "" "" "" "" ∧
    create_verification_requirements_prompt "" (some (String.mk (List.replicate 801 'a'))) "" "" ""
      ≠ create_verification_requirements_prompt "" (some (String.mk (List.replicate 800 'a'))) "" "" "" := by
  constructor <;> decide

/-- C3 (amended): when a PDF source is supplied, both assembled prompts contain
the ENTIRE extracted PDF text `t` (appended after `"\nPDF data: "`), with no
truncation for either document kind. -/
theorem c3_pdf_untruncated_amended (enhanced t exampleReqs exampleDesigns
    tableStructureStr tds exampleSystemReqs exampleVerifReqs exampleDesigns2 : String) :
    (∃ pre post,
      (generate_system_designs_prompt enhanced (some t) exampleReqs exampleDesigns
          tableStructureStr tds).data = pre ++ t.data ++ post) ∧
    (∃ pre post,
      (create_verification_requirements_prompt enhanced (some t) exampleSystemReqs
          exampleVerifReqs exampleDesigns2).data = pre ++ t.data ++ post) := by
  constructor
  · refine ⟨("\nUser Requirements (enhanced):\n" ++ enhanced ++ "\nPDF data: ").data,
      ("\n\nReference Requirements:\n" ++ exampleReqs ++ "\n\nReference Designs:\n"
        ++ exampleDesigns ++ "\n\nDatabase Structure:\n" ++ tableStructureStr
        ++ "\n\n" ++ tds ++ designTail).data, ?_⟩
    simp [generate_system_designs_prompt, designQueryText, appendPdfData,
      String.data_append]
  · refine ⟨("\nEnhanced System Requirements:\n" ++ enhanced ++ "\nPDF data: ").data,
      ("\n\nReference Requirements:\n" ++ exampleSystemReqs
        ++ "\n\nReference Verification Examples:\n" ++ exampleVerifReqs
        ++ "\n\nReference Designs:\n" ++ exampleDesigns2 ++ verifTail).data, ?_⟩
    simp [create_verification_requirements_prompt, verifQueryText, appendPdfData,
      String.data_append]
